import Mathlib

/-!
# Verification of the airsight gaze-to-action engine

A shallow embedding, in Lean 4, of the gaze signal-conditioning and
dwell-decision engine of the airsight repository (`src/main.py`,
`src/overlay.py`), together with theorems settling the specification
claims about it.

Modelling conventions:
* Python floats are modelled as rationals (`ℚ`); all definitions are
  executable so that concrete runs can be checked by `decide`/`rfl`.
* `numpy.linalg.norm(a - b) > t` (GazeSmoother.update, main.py line 60)
  is modelled by the squared comparison `t^2 < dist2 a b`; for the
  nonnegative pixel threshold the two are equivalent (lemma
  `lt_sqrt_iff_sq_lt` below records the equivalence over `ℝ`).
* Stateful methods become functions `state → input → state × output`.
* External collaborators (camera, MediaPipe, OS actuation, Qt
  rendering) are outside the embedding; their outputs (the detected
  iris point, frame dimensions, timestamps) are inputs to the tick
  function, and the engine's commands to them are explicit outputs.
-/

namespace Airsight

/-- A 2-D point with rational coordinates (camera-frame or screen pixels). -/
abbrev Pt : Type := ℚ × ℚ

/-- Squared Euclidean distance between two points.  The source computes
`np.linalg.norm(point - last)` and compares it with the threshold; we
compare squares instead (see `lt_sqrt_iff_sq_lt`). -/
def dist2 (p q : Pt) : ℚ :=
  (p.1 - q.1) ^ 2 + (p.2 - q.2) ^ 2

/-- For nonnegative `t`, comparing a Euclidean norm `√d` against `t` is the
same as comparing `d` against `t^2`: justifies the squared-distance
modelling of the outlier test. -/
theorem lt_sqrt_iff_sq_lt (d t : ℝ) (ht : 0 ≤ t) :
    t < Real.sqrt d ↔ t ^ 2 < d :=
  Real.lt_sqrt ht

/-! ## GazeSmoother (main.py lines 49–68) -/

/-- State of `GazeSmoother`: configuration plus the last smoothed point
(`None` before the first sample). -/
structure Smoother where
  alpha : ℚ
  outlier_px : ℚ
  last : Option Pt
  deriving DecidableEq

/-- The exponential blend `alpha*point + (1-alpha)*last`
(main.py lines 64–66). -/
def blend (alpha : ℚ) (point lastPt : Pt) : Pt :=
  (alpha * point.1 + (1 - alpha) * lastPt.1,
   alpha * point.2 + (1 - alpha) * lastPt.2)

/-- `GazeSmoother.update` (main.py lines 55–68): first call stores and
returns the point; afterwards an input farther than `outlier_px` from the
stored point is rejected (the stored point is returned, no mutation),
otherwise the blend is stored and returned. -/
def Smoother.update (s : Smoother) (point : Pt) : Smoother × Pt :=
  match s.last with
  | none => ({ s with last := some point }, point)
  | some lastPt =>
    if s.outlier_px ^ 2 < dist2 point lastPt then
      (s, lastPt)
    else
      let smoothed := blend s.alpha point lastPt
      ({ s with last := some smoothed }, smoothed)

/-! ## Calibration model (main.py lines 119–129, 237–241) -/

/-- A 2×3 affine calibration matrix `[[a, b, c], [d, e, f]]`, as stored in
`calibration_matrix` (`run_calibration` saves `matrix.T`, which is 2×3). -/
structure Affine where
  a : ℚ
  b : ℚ
  c : ℚ
  d : ℚ
  e : ℚ
  f : ℚ
  deriving DecidableEq

/-- `np.dot(self.calibration_matrix, [x, y, 1.0])`
(main.py lines 122–124): the raw point augmented with a constant 1 is
multiplied by the 2×3 matrix. -/
def applyAffine (M : Affine) (p : Pt) : Pt :=
  (M.a * p.1 + M.b * p.2 + M.c, M.d * p.1 + M.e * p.2 + M.f)

/-- `np.clip(v, 0.0, 1.0)`. -/
def clip01 (v : ℚ) : ℚ := min (max v 0) 1

/-- Screen-geometry and engine configuration read from `config.json`
(the fields of `EyeTrackerController.__init__` that the engine uses). -/
structure Config where
  screen_w : ℚ
  screen_h : ℚ
  threshold_ms : ℚ
  cooldown_ms : ℚ
  top_px : ℚ
  bottom_px : ℚ
  right_px : ℚ
  deriving DecidableEq

/-- `EyeTrackerController._map_to_screen` (main.py lines 119–129): with a
calibration matrix, apply the affine transform to `[x, y, 1]` — no
clamping; without one, normalize by the frame dimensions, clamp each axis
to `[0, 1]`, and scale by the screen dimensions. -/
def mapToScreen (cfg : Config) (matrix : Option Affine) (gaze : Pt)
    (frame_w frame_h : ℚ) : Pt :=
  match matrix with
  | some M => applyAffine M gaze
  | none =>
    (clip01 (gaze.1 / frame_w) * cfg.screen_w,
     clip01 (gaze.2 / frame_h) * cfg.screen_h)

/-- Squared screen-space error of `M` on one correspondence
`(rawPoint, targetPoint)`. -/
def sqErr (M : Affine) (pr : Pt × Pt) : ℚ :=
  ((applyAffine M pr.1).1 - pr.2.1) ^ 2 + ((applyAffine M pr.1).2 - pr.2.2) ^ 2

/-- Total squared residual of `M` on a list of correspondences: the
quantity `np.linalg.lstsq(A, B)` minimizes, with the design matrix `A`
the raw points augmented by a constant 1 column (folded into
`applyAffine`) and `B` the targets.  Minimizing the combined x/y sum is
the same as minimizing each output channel independently, since the two
channels use disjoint matrix entries. -/
def residual (samples targets : List Pt) (M : Affine) : ℚ :=
  ((samples.zip targets).map (sqErr M)).sum

/-- The least-squares guarantee of `np.linalg.lstsq` (an external library
call): the returned matrix minimizes the total squared residual over all
2×3 matrices. -/
def IsLstsqFit (samples targets : List Pt) (M : Affine) : Prop :=
  ∀ M' : Affine, residual samples targets M ≤ residual samples targets M'

/-- Observable outcome of the fit stage of `run_calibration`:
the calibration matrix afterwards, whether a save to configuration
happened, and whether an insufficient-data signal was reported. -/
structure CalibResult where
  matrix : Option Affine
  savedToConfig : Bool
  insufficientDataSignal : Bool
  deriving DecidableEq

/-- The fit stage of `EyeTrackerController.run_calibration`
(main.py lines 237–241): `if len(A) >= 3:` fit by least squares and save,
else fall through.  `fitted` stands for the matrix `np.linalg.lstsq`
returns (characterized by `IsLstsqFit`); `current` is the calibration
matrix before the run.  The code contains no error-reporting statement on
any path, so `insufficientDataSignal` is `false` on every path. -/
def run_calibration_fit (samples _targets : List Pt) (current : Option Affine)
    (fitted : Affine) : CalibResult :=
  if 3 ≤ samples.length then
    { matrix := some fitted, savedToConfig := true, insufficientDataSignal := false }
  else
    { matrix := current, savedToConfig := false, insufficientDataSignal := false }

/-! ## Zone classifier (main.py lines 131–138) -/

/-- The edge-scroll zones. -/
inductive Zone where
  | scroll_up
  | scroll_down
  | scroll_right
  deriving DecidableEq

/-- The scroll pulses dispatched to the OS actuator
(`ScrollController.scroll_up/scroll_down/scroll_right`). -/
inductive ScrollCmd where
  | up
  | down
  | right
  deriving DecidableEq

/-- The scroll command `_process_dwell` dispatches for each zone
(main.py lines 157–162). -/
def scrollCmdOf : Zone → ScrollCmd
  | .scroll_up => .up
  | .scroll_down => .down
  | .scroll_right => .right

/-- `EyeTrackerController._zone_for_point` (main.py lines 131–138):
first match wins — top band, then bottom band, then right band,
else no zone. -/
def zone_for_point (cfg : Config) (p : Pt) : Option Zone :=
  if p.2 ≤ cfg.top_px then some .scroll_up
  else if cfg.screen_h - cfg.bottom_px ≤ p.2 then some .scroll_down
  else if cfg.screen_w - cfg.right_px ≤ p.1 then some .scroll_right
  else none

/-! ## Dwell state machines (main.py lines 20–24, 140–175) -/

/-- The `DwellState` dataclass (main.py lines 20–24), generic in the
target type: the scroll machine tracks a `Zone`, the menu machine a
`MenuAction`. -/
structure DwellState (α : Type) where
  active_zone : Option α
  start_ts : ℚ
  last_fire_ts : ℚ
  deriving DecidableEq

/-- `EyeTrackerController._process_dwell` (main.py lines 140–162):
target change resets the timer; a sustained `None` is a no-op; otherwise
the cooldown gate is checked before the threshold, and on firing
`last_fire_ts` is set to `now` and the zone's scroll command is
dispatched. -/
def process_dwell (cfg : Config) (s : DwellState Zone) (zone : Option Zone)
    (now : ℚ) : DwellState Zone × Option ScrollCmd :=
  let threshold := cfg.threshold_ms / 1000
  let cooldown := cfg.cooldown_ms / 1000
  if zone ≠ s.active_zone then
    ({ s with active_zone := zone, start_ts := now }, none)
  else
    match zone with
    | none => (s, none)
    | some z =>
      if now - s.last_fire_ts < cooldown then (s, none)
      else if threshold ≤ now - s.start_ts then
        ({ s with last_fire_ts := now }, some (scrollCmdOf z))
      else (s, none)

/-- The menu actions of the circular overlay (overlay.py line 14). -/
inductive MenuAction where
  | pause
  | resume
  | recalibrate
  | exit
  deriving DecidableEq

/-- `EyeTrackerController._process_menu_dwell` (main.py lines 164–175):
like `_process_dwell` but with no cooldown gate, returning `true` on fire
and resetting `active_zone` to `None`; `last_fire_ts` is never touched. -/
def process_menu_dwell (cfg : Config) (s : DwellState MenuAction)
    (action : Option MenuAction) (now : ℚ) : DwellState MenuAction × Bool :=
  let threshold := cfg.threshold_ms / 1000
  if action ≠ s.active_zone then
    ({ s with active_zone := action, start_ts := now }, false)
  else
    match action with
    | none => (s, false)
    | some _ =>
      if threshold ≤ now - s.start_ts then
        ({ s with active_zone := none }, true)
      else (s, false)

/-! ## Circular menu overlay geometry (overlay.py lines 33–57)

The overlay's ring centers are computed in the source by radial
trigonometry (`qCos`/`qSin` of fixed angles with π approximated as
3.14159); those transcendental coordinates are recorded here as data in
`ringCenters`, while the structure of the hit-test — the expanded gate,
first-match iteration, and 20-pixel disc test — is embedded exactly. -/

/-- Geometry of `CircularMenuOverlay`: screen center of the widget, base
circle radius, and the per-action ring-circle centers in screen
coordinates. -/
structure Overlay where
  center : Pt
  radius : ℚ
  ringCenters : List (MenuAction × Pt)
  deriving DecidableEq

/-- `CircularMenuOverlay.action_at` (overlay.py lines 33–46): `None` when
the overlay is not expanded, otherwise the first action whose ring circle
(radius 20) contains the point.  The `expanded` flag lives in the run
state, so it is passed explicitly. -/
def action_at (ov : Overlay) (expanded : Bool) (p : Pt) : Option MenuAction :=
  if expanded then
    ov.ringCenters.findSome? fun ac =>
      if dist2 p ac.2 ≤ 20 ^ 2 then some ac.1 else none
  else none

/-- `CircularMenuOverlay.is_in_base_circle` (overlay.py lines 48–50). -/
def is_in_base_circle (ov : Overlay) (p : Pt) : Bool :=
  decide (dist2 p ov.center ≤ ov.radius ^ 2)

/-! ## The per-tick run loop body (main.py lines 257–300) -/

/-- The mutable state of `EyeTrackerController.run` that the loop body
touches: smoother state, the two dwell machines, the enabled flag, the
overlay's `expanded`/`hover_action` flags, and the calibration matrix. -/
structure RunState where
  smoother : Smoother
  dwell : DwellState Zone
  menu_dwell : DwellState MenuAction
  enabled : Bool
  expanded : Bool
  hover : Option MenuAction
  matrix : Option Affine
  deriving DecidableEq

/-- Commands a tick emits to the external collaborators: the screen point
(fed to zone classification and the preview sink), the scroll pulse, the
fired menu action, a loop-exit request, and a recalibration request. -/
structure TickOut where
  screenPoint : Option Pt
  scrollCmd : Option ScrollCmd
  menuFired : Option MenuAction
  exitLoop : Bool
  recalibrate : Bool
  deriving DecidableEq

/-- The screen point a tick computes from a detected iris point
(main.py lines 270–271): `_map_to_screen` first, then
`smoother.update` on the mapped point. -/
def tickScreen (cfg : Config) (st : RunState) (iris : Pt)
    (frame_w frame_h : ℚ) : Pt :=
  (st.smoother.update (mapToScreen cfg st.matrix iris frame_w frame_h)).2

/-- One iteration of the `while` loop of `EyeTrackerController.run`
(main.py lines 257–300), given the external inputs of the tick: the
detected iris center (or `none` when `result.multi_face_landmarks` is
empty), the frame dimensions, and the two `time.time()` readings (line
278 for the menu machine, line 290 for the scroll machine).  When the
menu machine fires `exit`, the loop breaks before zone processing; a
fired `recalibrate` is emitted as a request (the nested calibration loop
is outside the tick).  Drawing and `processEvents` are external. -/
def tick (cfg : Config) (ov : Overlay) (st : RunState) (detection : Option Pt)
    (frame_w frame_h : ℚ) (tMenu tZone : ℚ) : RunState × TickOut :=
  match detection with
  | none => (st, ⟨none, none, none, false, false⟩)
  | some iris =>
    let mapped := mapToScreen cfg st.matrix iris frame_w frame_h
    let su := st.smoother.update mapped
    let screen := su.2
    let expanded1 := if is_in_base_circle ov screen then true else st.expanded
    let action := action_at ov expanded1 screen
    let md := process_menu_dwell cfg st.menu_dwell action tMenu
    let fired := md.2
    let enabled1 :=
      if fired then
        match action with
        | some .pause => false
        | some .resume => true
        | _ => st.enabled
      else st.enabled
    if fired ∧ action = some MenuAction.exit then
      ({ st with smoother := su.1, menu_dwell := md.1, enabled := enabled1,
                 expanded := expanded1, hover := action },
       ⟨some screen, none, action, true, false⟩)
    else
      let zd :=
        if enabled1 then process_dwell cfg st.dwell (zone_for_point cfg screen) tZone
        else (st.dwell, none)
      ({ st with smoother := su.1, dwell := zd.1, menu_dwell := md.1,
                 enabled := enabled1, expanded := expanded1, hover := action },
       ⟨some screen, zd.2, if fired then action else none, false,
        fired && decide (action = some MenuAction.recalibrate)⟩)

/-! ## Claim C9: smoother outlier rejection and blending -/

/-- C9: for a smoother with a stored last point, an input whose (squared)
Euclidean distance from the stored point exceeds the (squared) outlier
threshold is rejected — the stored point is returned and the state is
unchanged; otherwise the blend `alpha*point + (1-alpha)*last` is stored
and returned. -/
theorem smoother_update_spec (s : Smoother) (point lastPt : Pt)
    (hlast : s.last = some lastPt) :
    (s.outlier_px ^ 2 < dist2 point lastPt →
      s.update point = (s, lastPt)) ∧
    (dist2 point lastPt ≤ s.outlier_px ^ 2 →
      s.update point = ({ s with last := some (blend s.alpha point lastPt) },
        blend s.alpha point lastPt)) := by
  constructor
  · intro h
    simp only [Smoother.update, hlast, if_pos h]
  · intro h
    simp only [Smoother.update, hlast, if_neg (not_lt.2 h)]

/-- C9 witness: with `alpha = 1/2`, threshold 50 px, last point
`(100, 100)`: the input `(200, 100)` (distance 100 > 50) is rejected with
no state change, and the input `(110, 100)` (distance 10 ≤ 50) blends to
`(105, 100)` and is stored. -/
theorem smoother_update_witness :
    Smoother.update ⟨1/2, 50, some (100, 100)⟩ (200, 100) =
      (⟨1/2, 50, some (100, 100)⟩, (100, 100)) ∧
    Smoother.update ⟨1/2, 50, some (100, 100)⟩ (110, 100) =
      (⟨1/2, 50, some (105, 100)⟩, (105, 100)) := by
  constructor
  · exact (smoother_update_spec ⟨1/2, 50, some (100, 100)⟩ (200, 100) (100, 100) rfl).1
      (by norm_num [dist2])
  · have h := (smoother_update_spec ⟨1/2, 50, some (100, 100)⟩ (110, 100) (100, 100) rfl).2
      (by norm_num [dist2])
    rw [h]
    norm_num [blend]

/-! ## Claim C3: the under-3-samples calibration path -/

/-- C3 counterexample: a calibration run that produced only 2
correspondences does not report any insufficient-data signal — the fit
stage of `run_calibration` silently falls through (it has no error path
at all), so the claim "the fit reports an insufficient-data error
signal" is false at this input. -/
theorem calibration_no_error_signal_counterexample :
    (run_calibration_fit [(0, 0), (1, 1)] [(10, 10), (20, 20)] none
        ⟨1, 0, 0, 0, 1, 0⟩).insufficientDataSignal ≠ true := by
  decide

/-- C3 amended: with fewer than 3 correspondences the fit stage leaves the
calibration matrix unchanged, saves nothing, and reports nothing (there
is no error signal); with at least 3 it installs the least-squares fit
and saves it to configuration. -/
theorem run_calibration_fit_spec (samples targets : List Pt)
    (current : Option Affine) (fitted : Affine) :
    (samples.length < 3 →
      run_calibration_fit samples targets current fitted =
        ⟨current, false, false⟩) ∧
    (3 ≤ samples.length →
      run_calibration_fit samples targets current fitted =
        ⟨some fitted, true, false⟩) := by
  constructor
  · intro h
    rw [run_calibration_fit, if_neg (by omega)]
  · intro h
    rw [run_calibration_fit, if_pos h]

/-- C3 witness: a 2-sample run leaves a prior matrix in place with no
save and no signal. -/
theorem run_calibration_fit_witness :
    run_calibration_fit [(0, 0), (1, 1)] [(10, 10), (20, 20)]
        (some ⟨2, 0, 5, 0, 2, 7⟩) ⟨1, 0, 0, 0, 1, 0⟩ =
      ⟨some ⟨2, 0, 5, 0, 2, 7⟩, false, false⟩ :=
  (run_calibration_fit_spec [(0, 0), (1, 1)] [(10, 10), (20, 20)]
    (some ⟨2, 0, 5, 0, 2, 7⟩) ⟨1, 0, 0, 0, 1, 0⟩).1 (by decide)

/-! ## Claim C4: least-squares round-trip on exact affine data -/

theorem sqErr_nonneg (M : Affine) (pr : Pt × Pt) : 0 ≤ sqErr M pr :=
  add_nonneg (sq_nonneg _) (sq_nonneg _)

theorem residual_nonneg (samples targets : List Pt) (M : Affine) :
    0 ≤ residual samples targets M := by
  apply List.sum_nonneg
  intro x hx
  obtain ⟨pr, _, rfl⟩ := List.mem_map.1 hx
  exact sqErr_nonneg M pr

/-- C4: the fit minimizes the total squared screen-space residual of
`targets = A · samplesAugmented` (design matrix: raw points augmented by
a constant 1 column, 2×3 output matrix, the x/y channels using disjoint
entries).  Consequently, when the correspondences come from an exact
affine map, any least-squares solution reproduces every target point
exactly on its raw sample point. -/
theorem lstsq_exact_roundtrip (samples targets : List Pt) (M M0 : Affine)
    (_hlen : 3 ≤ samples.length)
    (hexact : ∀ pr ∈ samples.zip targets, applyAffine M0 pr.1 = pr.2)
    (hfit : IsLstsqFit samples targets M) :
    ∀ pr ∈ samples.zip targets, applyAffine M pr.1 = pr.2 := by
  have h0 : residual samples targets M0 = 0 := by
    rw [residual]
    apply List.sum_eq_zero
    intro x hx
    obtain ⟨pr, hpr, rfl⟩ := List.mem_map.1 hx
    rw [sqErr, hexact pr hpr]
    ring
  have hres : residual samples targets M = 0 :=
    le_antisymm (h0 ▸ hfit M0) (residual_nonneg samples targets M)
  intro pr hpr
  have hmem : sqErr M pr ∈ (samples.zip targets).map (sqErr M) :=
    List.mem_map_of_mem _ hpr
  have hle : sqErr M pr ≤ residual samples targets M :=
    List.single_le_sum (fun x hx => by
      obtain ⟨q, _, rfl⟩ := List.mem_map.1 hx
      exact sqErr_nonneg M q) _ hmem
  have hzero : sqErr M pr = 0 :=
    le_antisymm (hres ▸ hle) (sqErr_nonneg M pr)
  rw [sqErr] at hzero
  have hx : (applyAffine M pr.1).1 - pr.2.1 = 0 := by
    nlinarith [sq_nonneg ((applyAffine M pr.1).1 - pr.2.1),
      sq_nonneg ((applyAffine M pr.1).2 - pr.2.2)]
  have hy : (applyAffine M pr.1).2 - pr.2.2 = 0 := by
    nlinarith [sq_nonneg ((applyAffine M pr.1).1 - pr.2.1),
      sq_nonneg ((applyAffine M pr.1).2 - pr.2.2)]
  exact Prod.ext (sub_eq_zero.1 hx) (sub_eq_zero.1 hy)

/-- C4 witness: three correspondences that are exactly the identity
affine map; the identity matrix is a least-squares solution (its residual
is 0) and it reproduces a target on its raw point. -/
theorem lstsq_exact_roundtrip_witness :
    applyAffine ⟨1, 0, 0, 0, 1, 0⟩ ((0 : ℚ), (1 : ℚ)) = ((0 : ℚ), (1 : ℚ)) := by
  have hfit : IsLstsqFit [(0, 0), (1, 0), (0, 1)] [(0, 0), (1, 0), (0, 1)]
      ⟨1, 0, 0, 0, 1, 0⟩ := by
    intro M'
    have h0 : residual [(0, 0), (1, 0), (0, 1)] [(0, 0), (1, 0), (0, 1)]
        (⟨1, 0, 0, 0, 1, 0⟩ : Affine) = 0 := by
      norm_num [residual, sqErr, applyAffine]
    rw [h0]
    exact residual_nonneg _ _ _
  refine lstsq_exact_roundtrip [(0, 0), (1, 0), (0, 1)] [(0, 0), (1, 0), (0, 1)]
    ⟨1, 0, 0, 0, 1, 0⟩ ⟨1, 0, 0, 0, 1, 0⟩ (by decide) ?_ hfit
    (((0 : ℚ), (1 : ℚ)), ((0 : ℚ), (1 : ℚ))) ?_
  · intro pr hpr
    fin_cases hpr <;> norm_num [applyAffine]
  · norm_num

/-! ## Claim C5: scroll-dwell cooldown and threshold behaviour -/

/-- C5: with the scroll-dwell machine tracking the same non-None zone it
observes, no fire happens while `now - last_fire_ts < cooldown`;
otherwise it fires exactly when `now - start_ts ≥ threshold`, recording
`last_fire_ts = now` and emitting the zone's scroll command.  Hence there
is no fire before the threshold elapses from the start of the dwell, and
after a fire at `now` no second fire happens at any `now'` with
`now' - now < cooldown`. -/
theorem process_dwell_sustained_spec (cfg : Config) (s : DwellState Zone)
    (z : Zone) (now : ℚ) (hactive : s.active_zone = some z) :
    (now - s.last_fire_ts < cfg.cooldown_ms / 1000 →
      process_dwell cfg s (some z) now = (s, none)) ∧
    (cfg.cooldown_ms / 1000 ≤ now - s.last_fire_ts →
      (cfg.threshold_ms / 1000 ≤ now - s.start_ts →
        process_dwell cfg s (some z) now =
          ({ s with last_fire_ts := now }, some (scrollCmdOf z))) ∧
      (now - s.start_ts < cfg.threshold_ms / 1000 →
        process_dwell cfg s (some z) now = (s, none))) ∧
    (now - s.start_ts < cfg.threshold_ms / 1000 →
      process_dwell cfg s (some z) now = (s, none)) ∧
    (∀ now' : ℚ, now' - now < cfg.cooldown_ms / 1000 →
      process_dwell cfg { s with last_fire_ts := now } (some z) now' =
        ({ s with last_fire_ts := now }, none)) := by
  refine ⟨fun hcool => ?_, fun hcool => ⟨fun hthr => ?_, fun hthr => ?_⟩,
    fun hthr => ?_, fun now' hcool => ?_⟩
  · simp only [process_dwell, hactive, ne_eq, not_true_eq_false, if_false,
      if_pos hcool]
  · simp only [process_dwell, hactive, ne_eq, not_true_eq_false, if_false,
      if_neg (not_lt.2 hcool), if_pos hthr]
  · simp only [process_dwell, hactive, ne_eq, not_true_eq_false, if_false,
      if_neg (not_lt.2 hcool), if_neg (not_le.2 hthr)]
  · by_cases hcool : now - s.last_fire_ts < cfg.cooldown_ms / 1000
    · simp only [process_dwell, hactive, ne_eq, not_true_eq_false, if_false,
        if_pos hcool]
    · simp only [process_dwell, hactive, ne_eq, not_true_eq_false, if_false,
        if_neg hcool, if_neg (not_le.2 hthr)]
  · simp only [process_dwell, hactive, ne_eq, not_true_eq_false, if_false,
      if_pos hcool]

/-- C5 witness: threshold 500 ms, cooldown 1000 ms, target sustained from
`start_ts = 0` with the last fire long in the past: at `now = 1/2` s the
machine fires the zone's scroll command and records the fire time; a
re-observation at `now' = 1` s (only 1/2 s after the fire, inside the
cooldown) does not fire. -/
theorem process_dwell_sustained_witness :
    process_dwell ⟨1000, 1000, 500, 1000, 50, 50, 50⟩
        ⟨some .scroll_up, 0, -1000⟩ (some .scroll_up) (1/2) =
      (⟨some .scroll_up, 0, 1/2⟩, some .up) ∧
    process_dwell ⟨1000, 1000, 500, 1000, 50, 50, 50⟩
        ⟨some .scroll_up, 0, 1/2⟩ (some .scroll_up) 1 =
      (⟨some .scroll_up, 0, 1/2⟩, none) := by
  constructor
  · exact ((process_dwell_sustained_spec ⟨1000, 1000, 500, 1000, 50, 50, 50⟩
      ⟨some .scroll_up, 0, -1000⟩ .scroll_up (1/2) rfl).2.1
      (by norm_num)).1 (by norm_num)
  · exact (process_dwell_sustained_spec ⟨1000, 1000, 500, 1000, 50, 50, 50⟩
      ⟨some .scroll_up, 0, -1000⟩ .scroll_up (1/2) rfl).2.2.2 1 (by norm_num)

/-! ## Claim C6: menu-dwell firing, the None reset, and re-firing -/

/-- C6 counterexample: with a 500 ms threshold the menu machine, fed the
same action at every observation (the action never changes and the gaze
never leaves it), fires at `t = 0.5` s, merely restarts its timer at
`t = 0.6` s, and then fires AGAIN at `t = 1.1` s.  The `active_zone`
reset to `None` delays a re-fire by one dwell threshold but does not
prevent it, so the machine does not fire at most once per dwell episode
of a sustained unchanged gaze. -/
theorem menu_dwell_refires_counterexample :
    process_menu_dwell ⟨1000, 1000, 500, 1000, 50, 50, 50⟩
        ⟨some .pause, 0, 0⟩ (some .pause) (1/2) = (⟨none, 0, 0⟩, true) ∧
    process_menu_dwell ⟨1000, 1000, 500, 1000, 50, 50, 50⟩
        ⟨none, 0, 0⟩ (some .pause) (3/5) = (⟨some .pause, 3/5, 0⟩, false) ∧
    process_menu_dwell ⟨1000, 1000, 500, 1000, 50, 50, 50⟩
        ⟨some .pause, 3/5, 0⟩ (some .pause) (11/10) = (⟨none, 3/5, 0⟩, true) := by
  refine ⟨?_, ?_, ?_⟩
  · norm_num [process_menu_dwell]
  · simp only [process_menu_dwell, ne_eq, reduceCtorEq, not_false_eq_true,
      if_true]
  · norm_num [process_menu_dwell]

/-- C6 amended: the menu-dwell machine's firing decision ignores cooldown
entirely — it fires whenever the same non-None action has been sustained
for at least the dwell threshold since the timer (re)start, irrespective
of `cooldown_ms` and of `last_fire_ts`.  On firing it resets
`active_zone` to `None`, so the immediately following observation of the
same action only restarts the timer and does not fire; but a sustained
unchanged action re-fires once a further dwell threshold elapses from
that restart — the machine fires once per threshold interval, not at
most once per dwell episode. -/
theorem process_menu_dwell_spec (cfg : Config) (s : DwellState MenuAction)
    (a : MenuAction) (now now2 : ℚ) (hactive : s.active_zone = some a) :
    (cfg.threshold_ms / 1000 ≤ now - s.start_ts →
      process_menu_dwell cfg s (some a) now =
        ({ s with active_zone := none }, true) ∧
      process_menu_dwell cfg { s with active_zone := none } (some a) now2 =
        ({ s with active_zone := some a, start_ts := now2 }, false) ∧
      (∀ now3 : ℚ, cfg.threshold_ms / 1000 ≤ now3 - now2 →
        process_menu_dwell cfg { s with active_zone := some a, start_ts := now2 }
            (some a) now3 =
          ({ s with active_zone := none, start_ts := now2 }, true))) ∧
    (now - s.start_ts < cfg.threshold_ms / 1000 →
      process_menu_dwell cfg s (some a) now = (s, false)) ∧
    (∀ cd : ℚ,
      process_menu_dwell { cfg with cooldown_ms := cd } s (some a) now =
        process_menu_dwell cfg s (some a) now) ∧
    (∀ lf : ℚ,
      (process_menu_dwell cfg { s with last_fire_ts := lf } (some a) now).2 =
        (process_menu_dwell cfg s (some a) now).2) := by
  refine ⟨fun hthr => ⟨?_, ?_, fun now3 hthr3 => ?_⟩, fun hthr => ?_,
    fun cd => rfl, fun lf => ?_⟩
  · simp only [process_menu_dwell, hactive, ne_eq, not_true_eq_false, if_false,
      if_pos hthr]
  · simp only [process_menu_dwell, ne_eq, reduceCtorEq, not_false_eq_true,
      if_true]
  · simp only [process_menu_dwell, ne_eq, not_true_eq_false, if_false,
      if_pos hthr3]
  · simp only [process_menu_dwell, hactive, ne_eq, not_true_eq_false, if_false,
      if_neg (not_le.2 hthr)]
  · simp only [process_menu_dwell, hactive, ne_eq, not_true_eq_false, if_false]
    split <;> rfl

/-- C6 witness: threshold 500 ms, cooldown 1000 ms (ignored): an action
sustained from `start_ts = 0` fires at `now = 1/2` s and clears the
active target, feeding the same action again at `now2 = 3/5` s only
restarts the timer, and at `now3 = 11/10` s (a further threshold after
the restart, still inside the configured cooldown) it fires again. -/
theorem process_menu_dwell_witness :
    process_menu_dwell ⟨1000, 1000, 500, 1000, 50, 50, 50⟩
        ⟨some .pause, 0, 0⟩ (some .pause) (1/2) = (⟨none, 0, 0⟩, true) ∧
    process_menu_dwell ⟨1000, 1000, 500, 1000, 50, 50, 50⟩
        ⟨none, 0, 0⟩ (some .pause) (3/5) = (⟨some .pause, 3/5, 0⟩, false) ∧
    process_menu_dwell ⟨1000, 1000, 500, 1000, 50, 50, 50⟩
        ⟨some .pause, 3/5, 0⟩ (some .pause) (11/10) = (⟨none, 3/5, 0⟩, true) := by
  have h := (process_menu_dwell_spec ⟨1000, 1000, 500, 1000, 50, 50, 50⟩
    ⟨some .pause, 0, 0⟩ .pause (1/2) (3/5) rfl).1 (by norm_num)
  exact ⟨h.1, h.2.1, h.2.2 (11/10) (by norm_num)⟩

/-! ## Claim C7: unconditional timer reset on target change -/

/-- C7: for both dwell machines, whenever the observed target differs
from the current `active_zone` (including changes to or from `None`),
the machine stores the new target, restarts the timer at `now`, and does
not fire — for every configuration and every `last_fire_ts`, hence
independently of the cooldown. -/
theorem dwell_reset_on_change (cfg : Config) (s : DwellState Zone)
    (sm : DwellState MenuAction) (z : Option Zone) (a : Option MenuAction)
    (now : ℚ) (hz : z ≠ s.active_zone) (ha : a ≠ sm.active_zone) :
    process_dwell cfg s z now =
      ({ s with active_zone := z, start_ts := now }, none) ∧
    process_menu_dwell cfg sm a now =
      ({ sm with active_zone := a, start_ts := now }, false) := by
  constructor
  · simp only [process_dwell, ne_eq, hz, not_false_eq_true, if_true]
  · simp only [process_menu_dwell, ne_eq, ha, not_false_eq_true, if_true]

/-- C7 witness: the scroll machine drops from a zone to `None` and the
menu machine picks up an action from `None`; both restart their timers
at the observation time without firing, despite the last fire being
recent enough that the cooldown has not elapsed. -/
theorem dwell_reset_on_change_witness :
    process_dwell ⟨1000, 1000, 500, 1000, 50, 50, 50⟩
        ⟨some .scroll_up, 0, 4⟩ none 5 = (⟨none, 5, 4⟩, none) ∧
    process_menu_dwell ⟨1000, 1000, 500, 1000, 50, 50, 50⟩
        ⟨none, 0, 4⟩ (some .pause) 5 = (⟨some .pause, 5, 4⟩, false) :=
  dwell_reset_on_change ⟨1000, 1000, 500, 1000, 50, 50, 50⟩
    ⟨some .scroll_up, 0, 4⟩ ⟨none, 0, 4⟩ none (some .pause) 5
    (by decide) (by decide)

/-! ## Concrete example data for counterexamples and witnesses -/

/-- Example configuration: 1000×1000 screen, 500 ms threshold, 1000 ms
cooldown, 50-pixel edge bands. -/
def exCfg : Config := ⟨1000, 1000, 500, 1000, 50, 50, 50⟩

/-- Example overlay: base circle of radius 28 centered at `(900, 500)`,
one ring circle. -/
def exOv : Overlay := ⟨(900, 500), 28, [(.pause, (900, 400))]⟩

/-- Example run state: uncalibrated, smoother holding `(0, 0)`,
overlay collapsed, processing enabled. -/
def exSt : RunState :=
  ⟨⟨1/2, 50, some (0, 0)⟩, ⟨none, 0, 0⟩, ⟨none, 0, 0⟩, true, false, none, none⟩

/-- Example run state: calibrated with the identity affine map and a
fresh smoother. -/
def exSt2 : RunState :=
  ⟨⟨1/2, 50, none⟩, ⟨none, 0, 0⟩, ⟨none, 0, 0⟩, true, false, none,
    some ⟨1, 0, 0, 0, 1, 0⟩⟩

/-! ## Claim C1: order of smoothing and calibration mapping -/

/-- The per-tick point pipeline in the order the spec describes it —
smooth the raw point first, then map the smoothed point through the
calibration model.  Written from the spec's words, for comparison with
the source-order pipeline `tickScreen`. -/
def specSmoothThenMap (cfg : Config) (st : RunState) (iris : Pt)
    (frame_w frame_h : ℚ) : Pt :=
  mapToScreen cfg st.matrix (st.smoother.update iris).2 frame_w frame_h

/-- C1 counterexample: on a concrete tick the code's screen point (map
first, then smooth: the smoother rejects the mapped jump and returns
`(0,0)`) differs from the spec's order (smooth first, then map: the raw
jump is small, blends to `(5,5)` and maps to `(50,50)`), so the smoother
does not operate in raw gaze space. -/
theorem tick_smooth_order_counterexample :
    (tick exCfg exOv exSt (some (10, 10)) 100 100 0 0).2.screenPoint =
      some ((0 : ℚ), (0 : ℚ)) ∧
    specSmoothThenMap exCfg exSt (10, 10) 100 100 = ((50 : ℚ), (50 : ℚ)) ∧
    (tick exCfg exOv exSt (some (10, 10)) 100 100 0 0).2.screenPoint ≠
      some (specSmoothThenMap exCfg exSt (10, 10) 100 100) := by
  have h1 : (tick exCfg exOv exSt (some (10, 10)) 100 100 0 0).2.screenPoint =
      some ((0 : ℚ), (0 : ℚ)) := by
    norm_num [tick, exCfg, exOv, exSt, mapToScreen, clip01, Smoother.update,
      dist2, blend, is_in_base_circle, action_at, process_menu_dwell,
      process_dwell, zone_for_point, scrollCmdOf]
  have h2 : specSmoothThenMap exCfg exSt (10, 10) 100 100 =
      ((50 : ℚ), (50 : ℚ)) := by
    norm_num [specSmoothThenMap, exCfg, exSt, mapToScreen, clip01,
      Smoother.update, dist2, blend]
  refine ⟨h1, h2, ?_⟩
  rw [h1, h2]
  norm_num [Prod.ext_iff]

/-- C1 amended: per tick the raw point is mapped through the calibration
model first, and the smoother is applied afterwards to the mapped point
— the smoother operates in mapped screen space; its updated state is
stored from the mapped point as well, and there is no separate clamp
step. -/
theorem tick_map_then_smooth (cfg : Config) (ov : Overlay) (st : RunState)
    (iris : Pt) (frame_w frame_h t1 t2 : ℚ) :
    (tick cfg ov st (some iris) frame_w frame_h t1 t2).2.screenPoint =
      some (tickScreen cfg st iris frame_w frame_h) ∧
    (tick cfg ov st (some iris) frame_w frame_h t1 t2).1.smoother =
      (st.smoother.update (mapToScreen cfg st.matrix iris frame_w frame_h)).1 := by
  constructor <;>
    · simp only [tick, tickScreen]
      repeat' split
      all_goals rfl

/-! ## Claim C2: no clamping before zone classification -/

/-- The spec's on-screen range for a `ScreenPoint`:
`[0, screenWidth) × [0, screenHeight)`. -/
def onScreen (cfg : Config) (p : Pt) : Prop :=
  0 ≤ p.1 ∧ p.1 < cfg.screen_w ∧ 0 ≤ p.2 ∧ p.2 < cfg.screen_h

/-- C2 counterexample: with a fitted calibration matrix (here the
identity) a concrete tick produces the off-screen point `(5000, -50)` —
no clamping is applied — and that very point is handed to zone
classification, which marks the scroll-up zone active from `y = -50`. -/
theorem tick_unclamped_counterexample :
    (tick exCfg exOv exSt2 (some (5000, -50)) 100 100 0 0).2.screenPoint =
      some ((5000 : ℚ), (-50 : ℚ)) ∧
    ¬ onScreen exCfg ((5000 : ℚ), (-50 : ℚ)) ∧
    (tick exCfg exOv exSt2 (some (5000, -50)) 100 100 0 0).1.dwell.active_zone =
      some .scroll_up := by
  refine ⟨?_, ?_, ?_⟩
  · norm_num [tick, exCfg, exOv, exSt2, mapToScreen, applyAffine, clip01,
      Smoother.update, dist2, blend, is_in_base_circle, action_at,
      process_menu_dwell, process_dwell, zone_for_point, scrollCmdOf]
  · norm_num [onScreen, exCfg]
  · norm_num [tick, exCfg, exOv, exSt2, mapToScreen, applyAffine, clip01,
      Smoother.update, dist2, blend, is_in_base_circle, action_at,
      process_menu_dwell, process_dwell, zone_for_point, scrollCmdOf]
    decide

theorem clip01_nonneg (v : ℚ) : 0 ≤ clip01 v :=
  le_min (le_max_right v 0) zero_le_one

theorem clip01_le_one (v : ℚ) : clip01 v ≤ 1 :=
  min_le_right _ _

/-- C2 amended: only the uncalibrated fallback of the mapping guarantees
an on-screen result, in the closed range `[0, screenWidth] ×
[0, screenHeight]` (normalize, clamp each axis to `[0,1]`, scale); a
fitted calibration matrix is applied with no clamping, and the point
handed to zone classification is never clamped (see the
counterexample). -/
theorem mapToScreen_fallback_onScreen (cfg : Config) (gaze : Pt)
    (frame_w frame_h : ℚ) (hw : 0 ≤ cfg.screen_w) (hh : 0 ≤ cfg.screen_h) :
    0 ≤ (mapToScreen cfg none gaze frame_w frame_h).1 ∧
    (mapToScreen cfg none gaze frame_w frame_h).1 ≤ cfg.screen_w ∧
    0 ≤ (mapToScreen cfg none gaze frame_w frame_h).2 ∧
    (mapToScreen cfg none gaze frame_w frame_h).2 ≤ cfg.screen_h := by
  refine ⟨mul_nonneg (clip01_nonneg _) hw, ?_,
    mul_nonneg (clip01_nonneg _) hh, ?_⟩
  · calc clip01 (gaze.1 / frame_w) * cfg.screen_w
        ≤ 1 * cfg.screen_w := mul_le_mul_of_nonneg_right (clip01_le_one _) hw
      _ = cfg.screen_w := one_mul _
  · calc clip01 (gaze.2 / frame_h) * cfg.screen_h
        ≤ 1 * cfg.screen_h := mul_le_mul_of_nonneg_right (clip01_le_one _) hh
      _ = cfg.screen_h := one_mul _

/-- C2 amended witness: the fallback keeps a wild raw point
`(-300, 70000)` within the closed screen bounds. -/
theorem mapToScreen_fallback_onScreen_witness :
    0 ≤ (mapToScreen exCfg none (-300, 70000) 100 100).1 ∧
    (mapToScreen exCfg none (-300, 70000) 100 100).1 ≤ exCfg.screen_w ∧
    0 ≤ (mapToScreen exCfg none (-300, 70000) 100 100).2 ∧
    (mapToScreen exCfg none (-300, 70000) 100 100).2 ≤ exCfg.screen_h :=
  mapToScreen_fallback_onScreen exCfg (-300, 70000) 100 100
    (by norm_num [exCfg]) (by norm_num [exCfg])

/-! ## Claim C8: a missed detection leaves all state untouched -/

/-- C8: on a tick with no detected gaze point the loop body is skipped
entirely: the whole run state — both dwell machines, the smoother, the
enabled and overlay flags, the calibration matrix — is unchanged and no
command is emitted, so a momentary detection drop never cancels an
in-progress dwell. -/
theorem tick_no_detection (cfg : Config) (ov : Overlay) (st : RunState)
    (frame_w frame_h t1 t2 : ℚ) :
    tick cfg ov st none frame_w frame_h t1 t2 =
      (st, ⟨none, none, none, false, false⟩) :=
  rfl

/-! ## Claim C10: menu actions require a prior base-circle entry -/

/-- C10: the menu hit-test returns `None` whenever the overlay is not
expanded; within a tick the overlay becomes expanded exactly when it
already was or the current screen point lies in the base circle (the
only expansion in the run loop); hence on a tick where the overlay is
collapsed and the screen point misses the base circle, no menu action is
hovered or fired. -/
theorem menu_requires_expansion (cfg : Config) (ov : Overlay) (st : RunState)
    (iris : Pt) (frame_w frame_h t1 t2 : ℚ) (p : Pt)
    (hexp : st.expanded = false)
    (hbase : is_in_base_circle ov (tickScreen cfg st iris frame_w frame_h) = false) :
    action_at ov false p = none ∧
    (tick cfg ov st (some iris) frame_w frame_h t1 t2).1.expanded =
      (is_in_base_circle ov (tickScreen cfg st iris frame_w frame_h) || st.expanded) ∧
    (tick cfg ov st (some iris) frame_w frame_h t1 t2).1.hover = none ∧
    (tick cfg ov st (some iris) frame_w frame_h t1 t2).2.menuFired = none := by
  refine ⟨rfl, ?_, ?_, ?_⟩
  · simp only [tick, tickScreen]
    repeat' split
    all_goals simp_all
  · simp only [tick, tickScreen] at hbase ⊢
    simp [hbase, hexp, action_at]
  · simp only [tick, tickScreen] at hbase ⊢
    simp [hbase, hexp, action_at]

/-- C10 witness: with the collapsed example overlay, a concrete tick
whose screen point `(0, 0)` is far from the base circle at `(900, 500)`
leaves the overlay collapsed and selects no menu action. -/
theorem menu_requires_expansion_witness :
    action_at exOv false ((450 : ℚ), (500 : ℚ)) = none ∧
    (tick exCfg exOv exSt (some (10, 10)) 100 100 0 0).1.expanded =
      (is_in_base_circle exOv (tickScreen exCfg exSt (10, 10) 100 100) ||
        exSt.expanded) ∧
    (tick exCfg exOv exSt (some (10, 10)) 100 100 0 0).1.hover = none ∧
    (tick exCfg exOv exSt (some (10, 10)) 100 100 0 0).2.menuFired = none :=
  menu_requires_expansion exCfg exOv exSt (10, 10) 100 100 0 0 (450, 500) rfl
    (by norm_num [is_in_base_circle, tickScreen, mapToScreen, clip01,
      Smoother.update, dist2, blend, exCfg, exSt, exOv])

end Airsight

